import Mathlib

/-!
Shallow embedding of the SQL_RAG query pipeline core
(src/validation/validator.py, src/core/orchestrator.py,
src/llm/prompt_builder.py, src/llm/ollama_client.py) and proofs about it.

Strings are modelled as `List Char`.  Python `str.upper` on the ASCII texts
involved is `Char.toUpper` mapped over the characters; the regex word
boundary `\b` uses the ASCII word-character class `[A-Za-z0-9_]`, and
Python `str.strip()` / the regex class `\s` use the ASCII whitespace set.
-/

namespace SqlRag

/-- Whitespace characters of Python's default `str.strip` and the regex
class `\s` (ASCII). -/
def isSpaceChar (c : Char) : Bool :=
  c = ' ' || c = '\t' || c = '\n' || c = '\r' || c = '\x0b' || c = '\x0c'

/-- Word characters of the regex word boundary `\b` (ASCII `[A-Za-z0-9_]`). -/
def isWordChar (c : Char) : Bool :=
  ('A' ≤ c && c ≤ 'Z') || ('a' ≤ c && c ≤ 'z') || ('0' ≤ c && c ≤ '9') || c = '_'

/-- Python `str.upper` restricted to the ASCII texts the validator sees. -/
def upper (s : List Char) : List Char :=
  s.map Char.toUpper

/-- The pattern `kw` occurs in `q` starting at index `i`. -/
def occursAt (kw q : List Char) (i : Nat) : Bool :=
  List.isPrefixOf kw (q.drop i)

/-- The regex word boundary holds just before index `i` of `q`. -/
def boundaryBefore (q : List Char) : Nat → Bool
  | 0 => true
  | j + 1 =>
    match q.get? j with
    | some c => !isWordChar c
    | none => true

/-- The regex word boundary holds just after index `j - 1`, i.e. the
character at index `j` (if any) is not a word character. -/
def boundaryAfter (q : List Char) (j : Nat) : Bool :=
  match q.get? j with
  | some c => !isWordChar c
  | none => true

/-- The regex `\b kw \b` matches `q` at index `i`. -/
def wholeWordAt (kw q : List Char) (i : Nat) : Bool :=
  occursAt kw q i && boundaryBefore q i && boundaryAfter q (i + kw.length)

/-- `re.search(r'\b kw \b', q)` succeeds: some index carries a whole-word
occurrence of `kw`. -/
def wholeWordOccurs (kw q : List Char) : Bool :=
  (List.range (q.length + 1)).any (fun i => wholeWordAt kw q i)

/-- Python substring containment `kw in q`. -/
def substrOccurs (kw q : List Char) : Bool :=
  (List.range (q.length + 1)).any (fun i => occursAt kw q i)

/-- `len(re.findall(r'\b kw \b', q))`.  For a fixed keyword of word
characters two whole-word matches can never overlap (the boundary before a
later start would fall inside the earlier keyword), so the non-overlapping
`findall` count equals the number of indices with a whole-word match. -/
def countWholeWord (kw q : List Char) : Nat :=
  ((List.range (q.length + 1)).filter (fun i => wholeWordAt kw q i)).length

/-- The structured content of the `SecurityError` messages raised by
`SQLValidator` (src/validation/validator.py); each constructor carries
exactly the data interpolated into the corresponding f-string. -/
inductive SecurityError where
  | emptyQuery : SecurityError
  | prohibitedKeyword (kw : List Char) : SecurityError
  | invalidTable (table : List Char) : SecurityError
  | invalidColumn (table column : List Char) : SecurityError
  | tooManyJoins (count : Nat) : SecurityError
  | tooManySelects (count : Nat) : SecurityError
  | missingResultLimit : SecurityError
deriving DecidableEq, Repr

/-- Outcome of one validator rule: Python `return True`, or a raised
`SecurityError`. -/
inductive VResult where
  | ok : VResult
  | err (e : SecurityError) : VResult
deriving DecidableEq, Repr

namespace SQLValidator

/-- `SQLValidator.PROHIBITED_KEYWORDS`.  The source stores these in a
Python set whose iteration order is unspecified; the list below fixes the
textual order of the source, and every theorem about it only uses facts
that hold under any iteration order. -/
def PROHIBITED_KEYWORDS : List (List Char) :=
  [("DROP".toList), ("ALTER".toList), ("CREATE".toList), ("TRUNCATE".toList),
   ("INSERT".toList), ("UPDATE".toList), ("DELETE".toList), ("MERGE".toList),
   ("GRANT".toList), ("REVOKE".toList),
   ("XP_CMDSHELL".toList), ("SP_EXECUTESQL".toList)]

/-- `SQLValidator.validate_query`: reject blank queries, then reject the
first prohibited keyword found as a case-insensitive whole word
(`re.search(r'\b' + kw + r'\b', query.upper())`). -/
def validate_query (query : List Char) : VResult :=
  if query.all isSpaceChar then
    .err .emptyQuery
  else
    let normalized := upper query
    match PROHIBITED_KEYWORDS.find? (fun kw => wholeWordOccurs kw normalized) with
    | some kw => .err (.prohibitedKeyword kw)
    | none => .ok

/-- The regex identifier class `[A-Z0-9_]` used by the table/column
patterns (the query is uppercased before matching). -/
def isIdentChar (c : Char) : Bool :=
  ('A' ≤ c && c ≤ 'Z') || ('0' ≤ c && c ≤ '9') || c = '_'

/-- Try to match the regex `(?:FROM|JOIN)\s+([A-Z0-9_]+)` at the head of
`q`: the alternation tries `FROM` then `JOIN`, then one or more whitespace
characters, then a non-empty greedy identifier.  Returns the captured
identifier and the remainder of `q` after the whole match. -/
def matchFromJoinAt (q : List Char) : Option (List Char × List Char) :=
  let tryKw : List Char → Option (List Char × List Char) := fun kw =>
    if List.isPrefixOf kw q then
      let afterKw := q.drop kw.length
      let ws := afterKw.takeWhile isSpaceChar
      if ws.isEmpty then none
      else
        let afterWs := afterKw.drop ws.length
        let ident := afterWs.takeWhile isIdentChar
        if ident.isEmpty then none
        else some (ident, afterWs.drop ident.length)
    else none
  (tryKw ("FROM".toList)).orElse (fun _ => tryKw ("JOIN".toList))

/-- Left-to-right, non-overlapping scan of
`re.findall(r'(?:FROM|JOIN)\s+([A-Z0-9_]+)', q)`: at each position try the
pattern, on success record the capture and resume after the match, on
failure move one character right.  `fuel` is the remaining scan length;
each step consumes at least one character, so `fuel = q.length` at the
top-level entry is always sufficient. -/
def extractTablesAux : Nat → List Char → List (List Char)
  | 0, _ => []
  | _ + 1, [] => []
  | fuel + 1, c :: rest =>
    match matchFromJoinAt (c :: rest) with
    | some (tbl, remaining) => tbl :: extractTablesAux fuel remaining
    | none => extractTablesAux fuel rest

/-- All captures of `re.findall(r'(?:FROM|JOIN)\s+([A-Z0-9_]+)', q)`. -/
def extractTables (q : List Char) : List (List Char) :=
  extractTablesAux q.length q

/-- `SQLValidator.validate_schema`: if no table names are known, pass;
otherwise extract the identifiers following `FROM`/`JOIN` from the
uppercased query and reject the first one absent from the known table
set.  `tables` is the validator's `_table_names` (already uppercased). -/
def validate_schema (tables : List (List Char)) (query : List Char) : VResult :=
  if tables.isEmpty then .ok
  else
    match (extractTables (upper query)).find? (fun t => !(tables.contains t)) with
    | some t => .err (.invalidTable t)
    | none => .ok

/-- Try to match `([A-Z0-9_]+)\.([A-Z0-9_]+)` at the head of `q` (for
`validate_columns`): a non-empty identifier, a dot, a non-empty
identifier. -/
def matchTableColumnAt (q : List Char) : Option ((List Char × List Char) × List Char) :=
  let tbl := q.takeWhile isIdentChar
  if tbl.isEmpty then none
  else
    match q.drop tbl.length with
    | '.' :: rest =>
      let col := rest.takeWhile isIdentChar
      if col.isEmpty then none
      else some ((tbl, col), rest.drop col.length)
    | _ => none

/-- Scan of `re.findall(r'([A-Z0-9_]+)\.([A-Z0-9_]+)', q)`, with the same
fuel discipline as `extractTablesAux`. -/
def extractColumnsAux : Nat → List Char → List (List Char × List Char)
  | 0, _ => []
  | _ + 1, [] => []
  | fuel + 1, c :: rest =>
    match matchTableColumnAt (c :: rest) with
    | some (tc, remaining) => tc :: extractColumnsAux fuel remaining
    | none => extractColumnsAux fuel rest

/-- All captures of `re.findall(r'([A-Z0-9_]+)\.([A-Z0-9_]+)', q)`. -/
def extractColumns (q : List Char) : List (List Char × List Char) :=
  extractColumnsAux q.length q

/-- `SQLValidator.validate_columns`: for each explicit `table.column`
reference whose table is known, reject if the column is not among the
table's known columns.  `columnMap` is the validator's `_column_map` as an
association list. -/
def validate_columns (columnMap : List (List Char × List (List Char)))
    (query : List Char) : VResult :=
  if columnMap.isEmpty then .ok
  else
    match (extractColumns (upper query)).find? (fun tc =>
        match columnMap.lookup tc.1 with
        | some cols => !(cols.contains tc.2)
        | none => false) with
    | some tc => .err (.invalidColumn tc.1 tc.2)
    | none => .ok

/-- `SQLValidator.validate_complexity`: reject more than 5 whole-word
`JOIN` occurrences, then more than 3 whole-word `SELECT` occurrences. -/
def validate_complexity (query : List Char) : VResult :=
  let normalized := upper query
  let join_count := countWholeWord ("JOIN".toList) normalized
  if join_count > 5 then .err (.tooManyJoins join_count)
  else
    let select_count := countWholeWord ("SELECT".toList) normalized
    if select_count > 3 then .err (.tooManySelects select_count)
    else .ok

/-- `SQLValidator.enforce_result_limit`: pass exactly when the uppercased
query contains `TOP`, `LIMIT` or `COUNT(` as a plain substring (Python
`in` containment, not a word match). -/
def enforce_result_limit (query : List Char) : VResult :=
  let normalized := upper query
  let has_top := substrOccurs ("TOP".toList) normalized
  let has_limit := substrOccurs ("LIMIT".toList) normalized
  let is_count := substrOccurs ("COUNT(".toList) normalized
  if !(has_top || has_limit || is_count) then .err .missingResultLimit
  else .ok

end SQLValidator

/-- `SQLValidator._load_from_schema_elements` restricted to table names:
the uppercased names of the elements of type `table`, in order. -/
def tableNamesOfSchema (schema : List (List Char × List Char)) : List (List Char) :=
  (schema.filter (fun e => e.2 = ("table".toList))).map (fun e => upper e.1)

/-- `RAGOrchestrator._validate_sql`: the fixed rule chain
`validate_query`, `validate_schema`, `validate_complexity`,
`enforce_result_limit`; the first raised `SecurityError` wins.
(`validate_columns` is not part of the orchestrator's chain.) -/
def validateSQL (tables : List (List Char)) (query : List Char) : VResult :=
  match SQLValidator.validate_query query with
  | .err e => .err e
  | .ok =>
    match SQLValidator.validate_schema tables query with
    | .err e => .err e
    | .ok =>
      match SQLValidator.validate_complexity query with
      | .err e => .err e
      | .ok => SQLValidator.enforce_result_limit query

/-- The fields of `LLMResponse` (src/llm/models.py) used by the
orchestrator. -/
structure LLMResponse where
  content : List Char
  model : List Char
deriving DecidableEq, Repr

/-- Outcome of one call to `OllamaClient.generate` as observed by the
orchestrator: a response, a raised `LLMGenerationError`, or any other
exception (caught by the orchestrator's generic handler). -/
inductive GenOutcome where
  | ok (resp : LLMResponse) : GenOutcome
  | genError (msg : List Char) : GenOutcome
  | otherError (msg : List Char) : GenOutcome
deriving DecidableEq, Repr

/-- The fields of `QueryResult` (src/database/models.py) copied into the
pipeline result by `_execute_sql`. -/
structure QueryResult where
  columns : List (List Char)
  rows : List (List (List Char × List Char))
  row_count : Nat
deriving DecidableEq, Repr

/-- Outcome of one call to `QueryExecutor.execute`: a result, or a raised
exception.  The orchestrator's `DatabaseError` and generic handlers set
the same result fields (`status = error`, `error = str(e)`), so one error
constructor carrying the message models both. -/
inductive ExecOutcome where
  | ok (res : QueryResult) : ExecOutcome
  | err (msg : List Char) : ExecOutcome
deriving DecidableEq, Repr

/-- Deterministic collaborators of one `RAGOrchestrator` pipeline run.
`gen n` is the outcome of the n-th (1-based) call to
`OllamaClient.generate`; the prompt passed on each attempt (the base
prompt plus the previous failure message appended on retries) is
determined by the attempt number in a fixed run, so the external
generator is indexed by the attempt number.  `parse` is
`SQLParser.parse`, `exec` is `QueryExecutor.execute`, `retrieveFmt` is
`retriever.retrieve` followed by `retriever.format_context`, and `tables`
is the validator's `_table_names`. -/
structure Env where
  gen : Nat → GenOutcome
  parse : List Char → List Char
  exec : List Char → ExecOutcome
  retrieveFmt : List Char → List Char
  tables : List (List Char)

/-- The structured content of `result["error"]` as set by the
orchestrator: `f"Security Violation after {max_retries} attempts: {e}"`,
`f"Generation failed: {e}"`, `f"Unexpected error: {e}"`, or `str(e)` from
the execution handlers. -/
inductive RunError where
  | securityViolation (attempts : Nat) (e : SecurityError) : RunError
  | generationFailed (msg : List Char) : RunError
  | unexpected (msg : List Char) : RunError
  | execution (msg : List Char) : RunError
deriving DecidableEq, Repr

/-- The terminal `result["status"]` values of a pipeline run. -/
inductive Status where
  | success : Status
  | no_sql_generated : Status
  | error : Status
deriving DecidableEq, Repr

/-- State returned by `RAGOrchestrator._generate_sql` together with the
instrumentation needed to observe the run: the returned `sql_query`, the
error recorded in `result` (if any), the number of calls made to the
generator, the last value written to `result["generated_sql"]`, and every
candidate passed to `_validate_sql`. -/
structure GenRes where
  sqlQuery : List Char
  runError : Option RunError
  genAttempts : Nat
  generatedSql : Option (List Char)
  validateCalls : List (List Char)
deriving DecidableEq, Repr

/-- The body of the `while current_try < max_retries` loop of
`RAGOrchestrator._generate_sql`.  `remaining` is `max_retries -
current_try` at loop entry (strictly decreasing, hence the structural
fuel), `tries` is `current_try`, `sqlQuery` the current `sql_query`
variable, `gSql` the current `result["generated_sql"]`, `vAcc` the
candidates validated so far.  On generation success the parsed text is
stored, the sentinel breaks the loop before validation, a passing
validation breaks the loop, and each handler either records the terminal
error when `current_try == max_retries` (returning `"NO_SQL"`) or
continues the loop. -/
def genLoopAux (env : Env) (maxRetries : Nat) :
    Nat → Nat → List Char → Option (List Char) → List (List Char) → GenRes
  | 0, tries, sqlQuery, gSql, vAcc =>
    { sqlQuery := sqlQuery, runError := none, genAttempts := tries,
      generatedSql := gSql, validateCalls := vAcc }
  | remaining + 1, tries, sqlQuery, gSql, vAcc =>
    let t := tries + 1
    match env.gen t with
    | .ok resp =>
      let sql := env.parse resp.content
      if upper sql = ("NO_SQL".toList) then
        { sqlQuery := sql, runError := none, genAttempts := t,
          generatedSql := some sql, validateCalls := vAcc }
      else
        match validateSQL env.tables sql with
        | .ok =>
          { sqlQuery := sql, runError := none, genAttempts := t,
            generatedSql := some sql, validateCalls := vAcc ++ [sql] }
        | .err e =>
          if t = maxRetries then
            { sqlQuery := ("NO_SQL".toList),
              runError := some (.securityViolation maxRetries e),
              genAttempts := t, generatedSql := some sql,
              validateCalls := vAcc ++ [sql] }
          else
            genLoopAux env maxRetries remaining t sql (some sql) (vAcc ++ [sql])
    | .genError m =>
      if t = maxRetries then
        { sqlQuery := ("NO_SQL".toList),
          runError := some (.generationFailed m),
          genAttempts := t, generatedSql := gSql, validateCalls := vAcc }
      else
        genLoopAux env maxRetries remaining t sqlQuery gSql vAcc
    | .otherError m =>
      if t = maxRetries then
        { sqlQuery := ("NO_SQL".toList),
          runError := some (.unexpected m),
          genAttempts := t, generatedSql := gSql, validateCalls := vAcc }
      else
        genLoopAux env maxRetries remaining t sqlQuery gSql vAcc

/-- `RAGOrchestrator._generate_sql`: `max_retries = 3` at the call site;
`current_try = 0`, `sql_query = "NO_SQL"`, no generated SQL recorded,
nothing validated yet. -/
def generateSql (env : Env) (maxRetries : Nat) : GenRes :=
  genLoopAux env maxRetries maxRetries 0 ("NO_SQL".toList) none []

/-- The observable pipeline result of `RAGOrchestrator.process_query`:
the `result` dictionary fields plus the instrumentation of the run
(generator call count, queries passed to `QueryExecutor.execute`, and
candidates passed to `_validate_sql`). -/
structure RunResult where
  status : Status
  generated_sql : Option (List Char)
  error : Option RunError
  data : Option QueryResult
  genAttempts : Nat
  execCalls : List (List Char)
  validateCalls : List (List Char)
deriving DecidableEq, Repr

/-- Steps 3 and 4 of `RAGOrchestrator.process_query`: run
`_generate_sql`; if it recorded `status = error`, return without
executing; otherwise `_execute_sql` treats the sentinel as terminal
`no_sql_generated` and runs any other query exactly once, mapping an
execution failure to terminal `error` with the store's message. -/
def runPipeline (env : Env) (maxRetries : Nat) : RunResult :=
  let g := generateSql env maxRetries
  match g.runError with
  | some e =>
    { status := .error, generated_sql := g.generatedSql, error := some e,
      data := none, genAttempts := g.genAttempts, execCalls := [],
      validateCalls := g.validateCalls }
  | none =>
    if upper g.sqlQuery = ("NO_SQL".toList) then
      { status := .no_sql_generated, generated_sql := g.generatedSql,
        error := none, data := none, genAttempts := g.genAttempts,
        execCalls := [], validateCalls := g.validateCalls }
    else
      match env.exec g.sqlQuery with
      | .ok qres =>
        { status := .success, generated_sql := g.generatedSql,
          error := none, data := some qres, genAttempts := g.genAttempts,
          execCalls := [g.sqlQuery], validateCalls := g.validateCalls }
      | .err m =>
        { status := .error, generated_sql := g.generatedSql,
          error := some (.execution m), data := none,
          genAttempts := g.genAttempts, execCalls := [g.sqlQuery],
          validateCalls := g.validateCalls }

/-- A chat-history message with its `role` and `content` entries
(src/llm/prompt_builder.py reads exactly these two keys). -/
structure ChatMessage where
  role : List Char
  content : List Char
deriving DecidableEq, Repr

/-- The `ValueError`s raised by `PromptBuilder.build_prompt`. -/
inductive PromptError where
  | emptyQuestion : PromptError
  | questionTooLong : PromptError
deriving DecidableEq, Repr

/-- A `SchemaElement` (src/database/models.py) as used by the prompt
builder: its name, its type tag, and its metadata dictionary as an
association list. -/
structure SchemaElement where
  name : List Char
  type : List Char
  metadata : Option (List (List Char × List Char))
deriving DecidableEq, Repr

/-- Python dict assignment `m[k] = v` on an insertion-ordered dictionary:
replace in place if the key exists, otherwise append. -/
def dictSet (m : List (List Char × α)) (k : List Char) (v : α) :
    List (List Char × α) :=
  match m with
  | [] => [(k, v)]
  | (k₀, v₀) :: rest =>
    if k₀ = k then (k, v) :: rest else (k₀, v₀) :: dictSet rest k v

/-- Python `m.setdefault(k, []) ; m[k].append(v)` as performed by
`_format_schema`: append `v` to the list at `k`, creating the entry at
the end if absent. -/
def dictAppend (m : List (List Char × List α)) (k : List Char) (v : α) :
    List (List Char × List α) :=
  match m with
  | [] => [(k, [v])]
  | (k₀, v₀) :: rest =>
    if k₀ = k then (k, v₀ ++ [v]) :: rest else (k₀, v₀) :: dictAppend rest k v

/-- `PromptBuilder._format_history`: `"No previous conversation."` for a
missing or empty history, otherwise the last five messages rendered as
`"role: content"` lines joined by newlines. -/
def format_history : Option (List ChatMessage) → List Char
  | none => "No previous conversation.".toList
  | some h =>
    if h.isEmpty then "No previous conversation.".toList
    else
      let recent := h.drop (h.length - 5)
      List.intercalate ("\n".toList)
        (recent.map (fun m => m.role ++ (": ".toList) ++ m.content))

/-- The table→columns dictionary built by `PromptBuilder._format_schema`:
a `table` element installs (or resets) an empty entry, a `column` element
with a non-empty `table` metadata value appends `"name (dtype)"`, with
`dtype` defaulting to `"unknown"`. -/
def formatSchemaTables (elements : List SchemaElement) :
    List (List Char × List (List Char)) :=
  elements.foldl (fun tables e =>
    if e.type = ("table".toList) then dictSet tables e.name []
    else if e.type = ("column".toList) then
      match e.metadata with
      | none => tables
      | some md =>
        match md.lookup ("table".toList) with
        | none => tables
        | some tn =>
          if tn.isEmpty then tables
          else
            let dtype := (md.lookup ("dtype".toList)).getD ("unknown".toList)
            dictAppend tables tn (e.name ++ (" (".toList) ++ dtype ++ (")".toList))
    else tables) []

/-- `PromptBuilder._format_schema`: one `- Table: name` line per table in
insertion order, each followed by its indented column lines. -/
def format_schema (elements : List SchemaElement) : List Char :=
  List.intercalate ("\n".toList)
    ((formatSchemaTables elements).foldr (fun tc lines =>
      (("- Table: ".toList) ++ tc.1) ::
        (tc.2.map (fun col => ("  - ".toList) ++ col) ++ lines)) [])

/-- `PromptBuilder.DEFAULT_TEMPLATE` with its four placeholders filled in
(`{dialect}` appears twice). -/
def DEFAULT_TEMPLATE (dialect schema_context user_question chat_history : List Char) :
    List Char :=
  ("\nYou are an expert SQL developer. Your goal is to write a correct and efficient ".toList)
    ++ dialect
    ++ (" query to answer the user's question.\n\n### Database Schema\nThe following tables and columns are available:\n".toList)
    ++ schema_context
    ++ ("\n\n### Instructions\n1. Return ONLY the SQL query.\n2. Do not include any explanations or markdown formatting.\n3. Use ".toList)
    ++ dialect
    ++ (" syntax.\n4. If the question cannot be answered with the given schema, return \"NO_SQL\".\n\n### User Question\n".toList)
    ++ user_question
    ++ ("\n\n### Chat History\n".toList)
    ++ chat_history
    ++ ("\n\n### SQL Query\n".toList)

/-- `PromptBuilder.build_prompt`: reject a question that is empty or
whitespace-only, then reject a question longer than 500 characters, then
choose the schema context (a non-empty `context_str`, else formatted
non-empty `schema_elements`, else a fixed fallback) and fill the
template. -/
def build_prompt (dialect user_question : List Char)
    (schema_elements : Option (List SchemaElement))
    (context_str : Option (List Char))
    (history : Option (List ChatMessage)) : Except PromptError (List Char) :=
  if user_question.all isSpaceChar then
    .error .emptyQuestion
  else if user_question.length > 500 then
    .error .questionTooLong
  else
    let schema_context :=
      match context_str with
      | some c =>
        if c.isEmpty then
          match schema_elements with
          | some es =>
            if es.isEmpty then "No schema information provided.".toList
            else format_schema es
          | none => "No schema information provided.".toList
        else c
      | none =>
        match schema_elements with
        | some es =>
          if es.isEmpty then "No schema information provided.".toList
          else format_schema es
        | none => "No schema information provided.".toList
    .ok (DEFAULT_TEMPLATE dialect schema_context user_question
      (format_history history))

/-- `RAGOrchestrator.process_query`: retrieve and format context, build
the prompt (whose `ValueError`s propagate to the caller uncaught), then
run generation/validation and execution with `max_retries = 3`.  The
orchestrator's dialect defaults to `"T-SQL"`. -/
def processQuery (env : Env) (question : List Char)
    (history : Option (List ChatMessage)) : Except PromptError RunResult :=
  let ctx := env.retrieveFmt question
  match build_prompt ("T-SQL".toList) question none (some ctx) history with
  | .error e => .error e
  | .ok _prompt => .ok (runPipeline env 3)

/-- The `LLMGenerationError`s raised by `OllamaClient.generate`: the
rate-limit timeout, transport failure after the configured retry
attempts, or the defensive raise after the loop. -/
inductive LLMGenerationError where
  | rateLimitExceeded : LLMGenerationError
  | transportFailed (attempts : Nat) (msg : List Char) : LLMGenerationError
  | unexpectedLoopExit : LLMGenerationError
deriving DecidableEq, Repr

/-- The `for attempt in range(retry_attempts)` transport loop of
`OllamaClient.generate`: `transport attempt` is the outcome of the HTTP
round trip of that attempt; a `RequestException` on the last attempt
raises, earlier ones back off and continue; falling out of the loop
raises the defensive error.  `remaining = retryAttempts - attempt`. -/
def ollamaGenerateLoop (transport : Nat → Except (List Char) LLMResponse)
    (retryAttempts : Nat) : Nat → Nat → Except LLMGenerationError LLMResponse
  | _, 0 => .error .unexpectedLoopExit
  | attempt, remaining + 1 =>
    match transport attempt with
    | .ok resp => .ok resp
    | .error e =>
      if attempt = retryAttempts - 1 then
        .error (.transportFailed retryAttempts e)
      else
        ollamaGenerateLoop transport retryAttempts (attempt + 1) remaining

/-- `OllamaClient.generate`, with the timing behaviour of
`RateLimiter.acquire` abstracted to its boolean outcome `acquired`
(`False` exactly when no token became available before the configured
timeout): a failed acquire raises `LLMGenerationError("Rate limit
exceeded")` before any transport attempt. -/
def ollamaGenerate (acquired : Bool)
    (transport : Nat → Except (List Char) LLMResponse)
    (retryAttempts : Nat) : Except LLMGenerationError LLMResponse :=
  if acquired = false then .error .rateLimitExceeded
  else ollamaGenerateLoop transport retryAttempts 0 retryAttempts

/-- The message text of a `SecurityError` as raised by the validator's
f-strings. -/
def SecurityError.render : SecurityError → List Char
  | .emptyQuery => "Query cannot be empty.".toList
  | .prohibitedKeyword kw => ("Query contains prohibited keyword: ".toList) ++ kw
  | .invalidTable t => ("Query references invalid table: ".toList) ++ t
  | .invalidColumn t c =>
    ("Query references invalid column: ".toList) ++ t ++ (".".toList) ++ c
  | .tooManyJoins n =>
    ("Query too complex: ".toList) ++ (Nat.repr n).toList ++ (" JOINs (max 5)".toList)
  | .tooManySelects n =>
    ("Query too complex: ".toList) ++ (Nat.repr n).toList
      ++ (" SELECT statements (max 3)".toList)
  | .missingResultLimit =>
    "Query must include a result limit (TOP or LIMIT) or be an aggregation.".toList

/-- The message text of `result["error"]` as written by the
orchestrator's f-strings. -/
def RunError.render : RunError → List Char
  | .securityViolation n e =>
    ("Security Violation after ".toList) ++ (Nat.repr n).toList
      ++ (" attempts: ".toList) ++ e.render
  | .generationFailed m => ("Generation failed: ".toList) ++ m
  | .unexpected m => ("Unexpected error: ".toList) ++ m
  | .execution m => m

/-- Attempt `n` of a run fails and consumes one retry unit: the generator
raises (an `LLMGenerationError` or any other exception), or it returns a
response whose parsed text is not the sentinel and fails validation. -/
def attemptFails (env : Env) (n : Nat) : Bool :=
  match env.gen n with
  | .genError _ => true
  | .otherError _ => true
  | .ok resp =>
    let sql := env.parse resp.content
    !(upper sql == ("NO_SQL".toList)) && !(validateSQL env.tables sql == VResult.ok)

/-- The terminal error the orchestrator records when the final attempt
(attempt `maxRetries`) fails: the validation path carries the attempt
count, the generation and unexpected paths carry only the exception
message. -/
def finalAttemptError (env : Env) (maxRetries : Nat) : Option RunError :=
  match env.gen maxRetries with
  | .genError m => some (.generationFailed m)
  | .otherError m => some (.unexpected m)
  | .ok resp =>
    match validateSQL env.tables (env.parse resp.content) with
    | .err e => some (.securityViolation maxRetries e)
    | .ok => none

/-- A candidate the generation loop may legitimately hand to
`_execute_sql`: the sentinel, or a query that passed the whole rule
chain. -/
def sentinelOrValid (tables : List (List Char)) (sql : List Char) : Prop :=
  upper sql = ("NO_SQL".toList) ∨ validateSQL tables sql = .ok

/-- Test collaborators in which every generation attempt raises
`LLMGenerationError("boom")`. -/
def envGenFail : Env :=
  { gen := fun _ => .genError ("boom".toList),
    parse := fun s => s,
    exec := fun _ => .ok ⟨[], [], 0⟩,
    retrieveFmt := fun _ => [],
    tables := [] }

/-- Test collaborators that generate a valid bounded query on every
attempt but whose data store rejects every execution. -/
def envExecFail : Env :=
  { gen := fun _ => .ok ⟨("SELECT TOP 5 name FROM patients".toList), ("m".toList)⟩,
    parse := fun s => s,
    exec := fun _ => .err ("db down".toList),
    retrieveFmt := fun _ => [],
    tables := [("PATIENTS".toList)] }

/-- Test collaborators whose generator returns the sentinel on the first
attempt. -/
def envSentinel : Env :=
  { gen := fun _ => .ok ⟨("NO_SQL".toList), ("m".toList)⟩,
    parse := fun s => s,
    exec := fun _ => .ok ⟨[], [], 0⟩,
    retrieveFmt := fun _ => [],
    tables := [] }

/-- Test collaborators whose first attempt hits the rate-limit failure of
`OllamaClient.generate` and whose second attempt produces a valid bounded
query. -/
def envRateLimited : Env :=
  { gen := fun n =>
      if n = 1 then .genError ("Rate limit exceeded".toList)
      else .ok ⟨("SELECT TOP 5 name FROM patients".toList), ("m".toList)⟩,
    parse := fun s => s,
    exec := fun _ => .ok ⟨[("name".toList)], [], 0⟩,
    retrieveFmt := fun _ => [],
    tables := [("PATIENTS".toList)] }

/-- Two successive calls to `process_query` on the same orchestrator with
the same question and history; the orchestrator holds no mutable state
between calls, so both calls see the same collaborators `env`. -/
def processTwice (env : Env) (question : List Char)
    (history : Option (List ChatMessage)) :
    Except PromptError RunResult × Except PromptError RunResult :=
  (processQuery env question history, processQuery env question history)

lemma toUpper_eq_self_of_isSpaceChar {c : Char} (h : isSpaceChar c = true) :
    Char.toUpper c = c := by
  simp only [isSpaceChar, Bool.or_eq_true, decide_eq_true_eq] at h
  rcases h with ((((h | h) | h) | h) | h) | h <;> subst h <;> decide

lemma exists_err_iff_ne_ok (x : VResult) : (∃ e, x = .err e) ↔ x ≠ .ok := by
  cases x <;> simp

lemma mem_of_occursAt {c₀ : Char} {kw q : List Char} {i : Nat}
    (h : occursAt (c₀ :: kw) q i = true) : c₀ ∈ q := by
  have hp : (c₀ :: kw) <+: q.drop i := by
    simpa [occursAt, List.isPrefixOf_iff_prefix] using h
  exact List.mem_of_mem_drop (hp.subset (List.mem_cons_self c₀ kw))

lemma all_space_false {q : List Char} {c₀ : Char}
    (hc : c₀ ∈ upper q) (hne : isSpaceChar c₀ = false) :
    q.all isSpaceChar = false := by
  cases hq : q.all isSpaceChar with
  | false => rfl
  | true =>
    exfalso
    rcases List.mem_map.mp hc with ⟨c, hcq, hcu⟩
    have hsp := List.all_eq_true.mp hq c hcq
    rw [toUpper_eq_self_of_isSpaceChar hsp] at hcu
    subst hcu
    rw [hne] at hsp
    exact Bool.false_ne_true hsp

lemma not_all_space_of_kw {kw q : List Char} {i : Nat}
    (hkw : kw ∈ SQLValidator.PROHIBITED_KEYWORDS)
    (h : occursAt kw (upper q) i = true) :
    q.all isSpaceChar = false := by
  have hhead : ∀ k ∈ SQLValidator.PROHIBITED_KEYWORDS,
      k ≠ [] ∧ isSpaceChar (k.headD 'A') = false := by decide
  obtain ⟨hne, hsp⟩ := hhead kw hkw
  cases kw with
  | nil => exact absurd rfl hne
  | cons c₀ tl => exact all_space_false (mem_of_occursAt h) (by simpa using hsp)

lemma occursAt_of_wholeWord {kw q : List Char} (h : wholeWordOccurs kw q = true) :
    ∃ i, occursAt kw q i = true := by
  rcases List.any_eq_true.mp h with ⟨i, _, hi⟩
  simp only [wholeWordAt, Bool.and_eq_true] at hi
  exact ⟨i, hi.1.1⟩

lemma occursAt_of_substr {kw q : List Char} (h : substrOccurs kw q = true) :
    ∃ i, occursAt kw q i = true := by
  rcases List.any_eq_true.mp h with ⟨i, _, hi⟩
  exact ⟨i, hi⟩

/-- Claim C1: every candidate containing a prohibited keyword as a
case-insensitive whole word is rejected by `validate_query` with a
`SecurityError` naming an offending keyword, and every candidate in which
prohibited keywords occur only inside longer identifiers (substring but
never whole-word occurrences) is accepted. -/
theorem claim_C1 (q : List Char) :
    ((∃ kw ∈ SQLValidator.PROHIBITED_KEYWORDS, wholeWordOccurs kw (upper q) = true) →
      ∃ kw ∈ SQLValidator.PROHIBITED_KEYWORDS,
        SQLValidator.validate_query q = .err (.prohibitedKeyword kw) ∧
          wholeWordOccurs kw (upper q) = true)
    ∧ ((∃ kw ∈ SQLValidator.PROHIBITED_KEYWORDS, substrOccurs kw (upper q) = true) →
        (∀ kw ∈ SQLValidator.PROHIBITED_KEYWORDS, wholeWordOccurs kw (upper q) = false) →
          SQLValidator.validate_query q = .ok) := by
  constructor
  · rintro ⟨kw, hmem, hww⟩
    obtain ⟨i, hocc⟩ := occursAt_of_wholeWord hww
    have hall := not_all_space_of_kw hmem hocc
    have hsome : (SQLValidator.PROHIBITED_KEYWORDS.find?
        (fun k => wholeWordOccurs k (upper q))).isSome = true :=
      List.find?_isSome.mpr ⟨kw, hmem, hww⟩
    obtain ⟨kw₀, hfind⟩ := Option.isSome_iff_exists.mp hsome
    refine ⟨kw₀, List.mem_of_find?_eq_some hfind, ?_, by simpa using List.find?_some hfind⟩
    simp [SQLValidator.validate_query, hall, hfind]
  · rintro ⟨kw, hmem, hsub⟩ hnone
    obtain ⟨i, hocc⟩ := occursAt_of_substr hsub
    have hall := not_all_space_of_kw hmem hocc
    have hfind : SQLValidator.PROHIBITED_KEYWORDS.find?
        (fun k => wholeWordOccurs k (upper q)) = none :=
      List.find?_eq_none.mpr (fun k hk => by simp [hnone k hk])
    simp [SQLValidator.validate_query, hall, hfind]

/-- Witness for C1: `DROP TABLE students` is rejected naming a prohibited
keyword that occurs as a whole word, while `SELECT update_date FROM t
LIMIT 5`, where `UPDATE` occurs only inside the identifier
`update_date`, is accepted. -/
theorem claim_C1_witness :
    (∃ kw ∈ SQLValidator.PROHIBITED_KEYWORDS,
        SQLValidator.validate_query ("DROP TABLE students".toList) =
          .err (.prohibitedKeyword kw) ∧
        wholeWordOccurs kw (upper ("DROP TABLE students".toList)) = true)
    ∧ SQLValidator.validate_query ("SELECT update_date FROM t LIMIT 5".toList) = .ok :=
  ⟨(claim_C1 _).1 (by decide), (claim_C1 _).2 (by decide) (by decide)⟩

/-- Counterexample to claim C4 as stated: `SELECT NAME FROM STOPS` has no
row-limiting clause (no whole-word `TOP`, no `LIMIT` at all) and no
aggregate call, yet `enforce_result_limit` accepts it, because the guard
tests plain substring containment and `STOPS` contains `TOP`. -/
theorem claim_C4_counterexample :
    SQLValidator.enforce_result_limit ("SELECT NAME FROM STOPS".toList) = .ok
    ∧ wholeWordOccurs ("TOP".toList) (upper ("SELECT NAME FROM STOPS".toList)) = false
    ∧ wholeWordOccurs ("LIMIT".toList) (upper ("SELECT NAME FROM STOPS".toList)) = false
    ∧ substrOccurs ("LIMIT".toList) (upper ("SELECT NAME FROM STOPS".toList)) = false
    ∧ substrOccurs ("COUNT(".toList) (upper ("SELECT NAME FROM STOPS".toList)) = false := by
  decide

/-- Claim C4 as amended: the result-size guard rejects exactly when the
uppercased query contains none of the substrings `TOP`, `LIMIT` and
`COUNT(` (plain substring containment, not clause or word detection); in
particular a query with none of these fails the guard and appending
` LIMIT 10` to it makes it pass. -/
theorem claim_C4_amended (q : List Char) :
    ((∃ e, SQLValidator.enforce_result_limit q = .err e) ↔
      (substrOccurs ("TOP".toList) (upper q) = false ∧
       substrOccurs ("LIMIT".toList) (upper q) = false ∧
       substrOccurs ("COUNT(".toList) (upper q) = false))
    ∧ SQLValidator.enforce_result_limit ("SELECT name FROM patients".toList) =
        .err .missingResultLimit
    ∧ SQLValidator.enforce_result_limit
        (("SELECT name FROM patients".toList) ++ (" LIMIT 10".toList)) = .ok := by
  refine ⟨?_, by decide, by decide⟩
  rw [exists_err_iff_ne_ok]
  have hmain : ∀ a b c : Bool,
      ((if !(a || b || c) then VResult.err SecurityError.missingResultLimit
        else VResult.ok) ≠ VResult.ok) ↔ (a = false ∧ b = false ∧ c = false) := by
    decide
  exact hmain _ _ _

/-- Claim C5: complexity validation rejects exactly when the query has
more than 5 whole-word `JOIN` occurrences or more than 3 whole-word
`SELECT` occurrences; in particular a query with 6 JOINs is rejected and
an otherwise-identical query with exactly 5 JOINs is accepted. -/
theorem claim_C5 (q : List Char) :
    ((∃ e, SQLValidator.validate_complexity q = .err e) ↔
      (5 < countWholeWord ("JOIN".toList) (upper q) ∨
       3 < countWholeWord ("SELECT".toList) (upper q)))
    ∧ SQLValidator.validate_complexity
        ("SELECT * FROM a JOIN b JOIN c JOIN d JOIN e JOIN f JOIN g".toList) =
        .err (.tooManyJoins 6)
    ∧ SQLValidator.validate_complexity
        ("SELECT * FROM a JOIN b JOIN c JOIN d JOIN e JOIN f".toList) = .ok := by
  refine ⟨?_, by decide, by decide⟩
  rw [exists_err_iff_ne_ok]
  have hmain : ∀ j s : Nat,
      ((if 5 < j then VResult.err (SecurityError.tooManyJoins j)
        else if 3 < s then VResult.err (SecurityError.tooManySelects s)
        else VResult.ok) ≠ VResult.ok) ↔ (5 < j ∨ 3 < s) := by
    intro j s
    split_ifs with h₁ h₂
    · simp [h₁]
    · simp [h₂]
    · simp [h₁, h₂]
  exact hmain _ _

/-- Claim C6: with a non-empty known table set, `validate_schema` rejects
exactly when some identifier extracted after a `FROM`/`JOIN` token is
absent from the set; with an empty set it always passes.  For the schema
with tables `patients` and `visits`, `SELECT * FROM patients` passes and
`SELECT * FROM hackers` fails. -/
lemma validate_schema_eq_find (tables : List (List Char)) (q : List Char)
    (hni : tables.isEmpty = false) :
    SQLValidator.validate_schema tables q =
      match (SQLValidator.extractTables (upper q)).find?
          (fun t => !(tables.contains t)) with
      | some t => .err (.invalidTable t)
      | none => .ok := by
  unfold SQLValidator.validate_schema
  simp [hni]

theorem claim_C6 (tables : List (List Char)) (q : List Char) :
    (tables = [] → SQLValidator.validate_schema tables q = .ok)
    ∧ (tables ≠ [] →
        ((∃ e, SQLValidator.validate_schema tables q = .err e) ↔
          ∃ t ∈ SQLValidator.extractTables (upper q), tables.contains t = false))
    ∧ SQLValidator.validate_schema
        (tableNamesOfSchema [(("patients".toList), ("table".toList)),
          (("visits".toList), ("table".toList))])
        ("SELECT * FROM patients".toList) = .ok
    ∧ SQLValidator.validate_schema
        (tableNamesOfSchema [(("patients".toList), ("table".toList)),
          (("visits".toList), ("table".toList))])
        ("SELECT * FROM hackers".toList) =
        .err (.invalidTable ("HACKERS".toList)) := by
  refine ⟨?_, ?_, by decide, by decide⟩
  · intro h
    subst h
    rfl
  · intro hne
    have hni : tables.isEmpty = false := by
      cases tables with
      | nil => exact absurd rfl hne
      | cons a l => rfl
    rw [validate_schema_eq_find tables q hni]
    cases hfind : (SQLValidator.extractTables (upper q)).find?
        (fun t => !(tables.contains t)) with
    | none =>
      simp only [hfind]
      constructor
      · rintro ⟨e, he⟩
        exact absurd he (by simp)
      · rintro ⟨t, hmem, habs⟩
        have hsome : ((SQLValidator.extractTables (upper q)).find?
            (fun t => !(tables.contains t))).isSome = true :=
          List.find?_isSome.mpr ⟨t, hmem, by simpa using habs⟩
        rw [hfind] at hsome
        exact absurd hsome (by simp)
    | some t =>
      simp only [hfind]
      constructor
      · rintro ⟨e, -⟩
        refine ⟨t, List.mem_of_find?_eq_some hfind, ?_⟩
        have := List.find?_some hfind
        simpa using this
      · rintro ⟨t', -, -⟩
        exact ⟨.invalidTable t, rfl⟩

/-- Witness for C6: instantiates the schema-validation theorem at the
table set of the `patients`/`visits` schema and at the empty table set. -/
theorem claim_C6_witness :
    ((∃ e, SQLValidator.validate_schema [("PATIENTS".toList), ("VISITS".toList)]
        ("SELECT * FROM hackers".toList) = .err e) ↔
      ∃ t ∈ SQLValidator.extractTables (upper ("SELECT * FROM hackers".toList)),
        ([("PATIENTS".toList), ("VISITS".toList)]).contains t = false)
    ∧ SQLValidator.validate_schema [] ("SELECT * FROM hackers".toList) = .ok :=
  ⟨(claim_C6 _ _).2.1 (by decide), (claim_C6 [] _).1 rfl⟩

lemma validateCalls_not_sentinel (env : Env) (mr : Nat) :
    ∀ (r t : Nat) (sql : List Char) (g : Option (List Char)) (v : List (List Char)),
      (∀ s ∈ v, upper s ≠ ("NO_SQL".toList)) →
      ∀ s ∈ (genLoopAux env mr r t sql g v).validateCalls,
        upper s ≠ ("NO_SQL".toList) := by
  intro r
  induction r with
  | zero =>
    intro t sql g v hv
    simpa only [genLoopAux] using hv
  | succ r ih =>
    intro t sql g v hv
    have hext : ∀ sql', upper sql' ≠ ("NO_SQL".toList) →
        ∀ s ∈ v ++ [sql'], upper s ≠ ("NO_SQL".toList) := by
      intro sql' hns s hs
      rcases List.mem_append.mp hs with h | h
      · exact hv s h
      · rw [List.mem_singleton.mp h]
        exact hns
    cases hg : env.gen (t + 1) with
    | ok resp =>
      by_cases hns : upper (env.parse resp.content) = ("NO_SQL".toList)
      · simp only [genLoopAux, hg, if_pos hns]
        exact hv
      · cases hval : validateSQL env.tables (env.parse resp.content) with
        | ok =>
          simp only [genLoopAux, hg, if_neg hns, hval]
          exact hext _ hns
        | err e =>
          by_cases hl : t + 1 = mr
          · simp only [genLoopAux, hg, if_neg hns, hval, if_pos hl]
            exact hext _ hns
          · simp only [genLoopAux, hg, if_neg hns, hval, if_neg hl]
            exact ih (t + 1) _ _ _ (hext _ hns)
    | genError m =>
      by_cases hl : t + 1 = mr
      · simp only [genLoopAux, hg, if_pos hl]
        exact hv
      · simp only [genLoopAux, hg, if_neg hl]
        exact ih (t + 1) _ _ _ hv
    | otherError m =>
      by_cases hl : t + 1 = mr
      · simp only [genLoopAux, hg, if_pos hl]
        exact hv
      · simp only [genLoopAux, hg, if_neg hl]
        exact ih (t + 1) _ _ _ hv

lemma genLoopAux_exit (env : Env) (mr : Nat) :
    ∀ (r t : Nat) (sql : List Char) (g : Option (List Char)) (v : List (List Char)),
      r + t = mr →
      (r = 0 → sentinelOrValid env.tables sql) →
      (genLoopAux env mr r t sql g v).runError = none →
      sentinelOrValid env.tables (genLoopAux env mr r t sql g v).sqlQuery := by
  intro r
  induction r with
  | zero =>
    intro t sql g v _ h0 _
    simpa only [genLoopAux] using h0 rfl
  | succ r ih =>
    intro t sql g v hinv h0 hre
    cases hg : env.gen (t + 1) with
    | ok resp =>
      by_cases hns : upper (env.parse resp.content) = ("NO_SQL".toList)
      · simp only [genLoopAux, hg, if_pos hns]
        exact Or.inl hns
      · cases hval : validateSQL env.tables (env.parse resp.content) with
        | ok =>
          simp only [genLoopAux, hg, if_neg hns, hval]
          exact Or.inr hval
        | err e =>
          by_cases hl : t + 1 = mr
          · exfalso
            simp only [genLoopAux, hg, if_neg hns, hval, if_pos hl] at hre
            exact Option.noConfusion hre
          · simp only [genLoopAux, hg, if_neg hns, hval, if_neg hl] at hre ⊢
            refine ih (t + 1) _ _ _ (by omega) (fun hr0 => absurd ?_ hl) hre
            omega
    | genError m =>
      by_cases hl : t + 1 = mr
      · exfalso
        simp only [genLoopAux, hg, if_pos hl] at hre
        exact Option.noConfusion hre
      · simp only [genLoopAux, hg, if_neg hl] at hre ⊢
        refine ih (t + 1) _ _ _ (by omega) (fun hr0 => absurd ?_ hl) hre
        omega
    | otherError m =>
      by_cases hl : t + 1 = mr
      · exfalso
        simp only [genLoopAux, hg, if_pos hl] at hre
        exact Option.noConfusion hre
      · simp only [genLoopAux, hg, if_neg hl] at hre ⊢
        refine ih (t + 1) _ _ _ (by omega) (fun hr0 => absurd ?_ hl) hre
        omega

lemma genLoopAux_step_ex (env : Env) (mr r t : Nat) (sql : List Char)
    (g : Option (List Char)) (v : List (List Char))
    (hf : attemptFails env (t + 1) = true) (hlast : t + 1 ≠ mr) :
    ∃ sql' g' v',
      genLoopAux env mr (r + 1) t sql g v = genLoopAux env mr r (t + 1) sql' g' v' := by
  cases hg : env.gen (t + 1) with
  | ok resp =>
    have hf' := hf
    unfold attemptFails at hf'
    rw [hg] at hf'
    simp only [Bool.and_eq_true, Bool.not_eq_true', beq_eq_false_iff_ne, ne_eq] at hf'
    obtain ⟨hns, hnv⟩ := hf'
    cases hval : validateSQL env.tables (env.parse resp.content) with
    | ok => exact absurd hval hnv
    | err e =>
      refine ⟨env.parse resp.content, some (env.parse resp.content),
        v ++ [env.parse resp.content], ?_⟩
      simp only [genLoopAux, hg, if_neg hns, hval, if_neg hlast]
  | genError m =>
    exact ⟨sql, g, v, by simp only [genLoopAux, hg, if_neg hlast]⟩
  | otherError m =>
    exact ⟨sql, g, v, by simp only [genLoopAux, hg, if_neg hlast]⟩

lemma genLoopAux_last_fail (env : Env) (mr r t : Nat) (sql : List Char)
    (g : Option (List Char)) (v : List (List Char))
    (hf : attemptFails env (t + 1) = true) (hlast : t + 1 = mr) :
    (genLoopAux env mr (r + 1) t sql g v).runError = finalAttemptError env mr ∧
    (genLoopAux env mr (r + 1) t sql g v).genAttempts = mr ∧
    (finalAttemptError env mr).isSome = true := by
  subst hlast
  cases hg : env.gen (t + 1) with
  | ok resp =>
    have hf' := hf
    unfold attemptFails at hf'
    rw [hg] at hf'
    simp only [Bool.and_eq_true, Bool.not_eq_true', beq_eq_false_iff_ne, ne_eq] at hf'
    obtain ⟨hns, hnv⟩ := hf'
    cases hval : validateSQL env.tables (env.parse resp.content) with
    | ok => exact absurd hval hnv
    | err e =>
      refine ⟨?_, ?_, ?_⟩ <;>
        simp only [genLoopAux, finalAttemptError, hg, if_neg hns, hval, if_pos rfl,
          if_true, Option.isSome_some]
  | genError m =>
    refine ⟨?_, ?_, ?_⟩ <;>
      simp only [genLoopAux, finalAttemptError, hg, if_pos rfl, if_true,
        Option.isSome_some]
  | otherError m =>
    refine ⟨?_, ?_, ?_⟩ <;>
      simp only [genLoopAux, finalAttemptError, hg, if_pos rfl, if_true,
        Option.isSome_some]

lemma genLoopAux_sentinel (env : Env) (mr r t : Nat) (sql : List Char)
    (g : Option (List Char)) (v : List (List Char)) (resp : LLMResponse)
    (hg : env.gen (t + 1) = .ok resp)
    (hs : upper (env.parse resp.content) = ("NO_SQL".toList)) :
    genLoopAux env mr (r + 1) t sql g v =
      { sqlQuery := env.parse resp.content, runError := none, genAttempts := t + 1,
        generatedSql := some (env.parse resp.content), validateCalls := v } := by
  simp only [genLoopAux, hg, if_pos hs]

lemma genLoopAux_valid (env : Env) (mr r t : Nat) (sql : List Char)
    (g : Option (List Char)) (v : List (List Char)) (resp : LLMResponse)
    (hg : env.gen (t + 1) = .ok resp)
    (hns : upper (env.parse resp.content) ≠ ("NO_SQL".toList))
    (hval : validateSQL env.tables (env.parse resp.content) = .ok) :
    genLoopAux env mr (r + 1) t sql g v =
      { sqlQuery := env.parse resp.content, runError := none, genAttempts := t + 1,
        generatedSql := some (env.parse resp.content),
        validateCalls := v ++ [env.parse resp.content] } := by
  simp only [genLoopAux, hg, if_neg hns, hval]

/-- Claim C10: `build_prompt` raises a `ValueError` for every question
longer than 500 characters, and also rejects every question that is empty
after trimming. -/
theorem claim_C10 (dialect q : List Char) (se : Option (List SchemaElement))
    (ctx : Option (List Char)) (h : Option (List ChatMessage)) :
    (500 < q.length → ∃ e, build_prompt dialect q se ctx h = .error e)
    ∧ (q.all isSpaceChar = true → build_prompt dialect q se ctx h = .error .emptyQuestion) := by
  constructor
  · intro hlen
    cases hsp : q.all isSpaceChar with
    | true => exact ⟨.emptyQuestion, by simp [build_prompt, hsp]⟩
    | false => exact ⟨.questionTooLong, by simp [build_prompt, hsp, hlen]⟩
  · intro hsp
    simp [build_prompt, hsp]

/-- Witness for C10: a 501-character question is rejected, and a
whitespace-only question is rejected as empty. -/
theorem claim_C10_witness :
    (∃ e, build_prompt ("T-SQL".toList) (List.replicate 501 'a') none none none = .error e)
    ∧ build_prompt ("T-SQL".toList) ("   ".toList) none none none = .error .emptyQuestion :=
  ⟨(claim_C10 _ _ _ _ _).1 (by simp only [List.length_replicate]; omega),
   (claim_C10 _ _ _ _ _).2 (by decide)⟩

/-- Counterexample to claim C2 as stated: with collaborators whose every
generation attempt raises `LLMGenerationError("boom")`, the run ends with
`status = error` after 3 attempts and the executor is never invoked, but
the terminal error is `Generation failed: boom`, whose rendered message
contains no digit at all and therefore does not reference the number of
attempts made. -/
theorem claim_C2_counterexample :
    (runPipeline envGenFail 3).status = .error
    ∧ (runPipeline envGenFail 3).error = some (.generationFailed ("boom".toList))
    ∧ (runPipeline envGenFail 3).execCalls = []
    ∧ (runPipeline envGenFail 3).genAttempts = 3
    ∧ (RunError.render (.generationFailed ("boom".toList))).any (fun c => c.isDigit)
        = false := by
  exact ⟨rfl, rfl, rfl, rfl, by decide⟩

/-- Claim C2 as amended: generation failures and validation failures
share one retry counter with budget 3; when every attempt up to the
budget fails, the run is terminal with `status = error`, the executor is
never invoked, and the recorded error describes the last failure — with
the attempt count included only on the validation path
(`Security Violation after 3 attempts: ...`), while a final generation
failure yields `Generation failed: ...` without the attempt count. -/
theorem claim_C2_amended (env : Env)
    (h : ([1, 2, 3].all (fun n => attemptFails env n)) = true) :
    (runPipeline env 3).status = .error
    ∧ (runPipeline env 3).execCalls = []
    ∧ (runPipeline env 3).genAttempts = 3
    ∧ (runPipeline env 3).error = finalAttemptError env 3
    ∧ (finalAttemptError env 3).isSome = true := by
  simp only [List.all_cons, List.all_nil, Bool.and_eq_true, Bool.and_true] at h
  obtain ⟨h1, h2, h3⟩ := h
  obtain ⟨s1, g1, v1, e1⟩ :=
    genLoopAux_step_ex env 3 2 0 ("NO_SQL".toList) none [] h1 (by omega)
  obtain ⟨s2, g2, v2, e2⟩ := genLoopAux_step_ex env 3 1 1 s1 g1 v1 h2 (by omega)
  obtain ⟨hre, hga, hsome⟩ := genLoopAux_last_fail env 3 0 2 s2 g2 v2 h3 rfl
  have hG : generateSql env 3 = genLoopAux env 3 1 2 s2 g2 v2 := by
    have e1x : genLoopAux env 3 3 0 ("NO_SQL".toList) none [] =
        genLoopAux env 3 2 1 s1 g1 v1 := e1
    have e2x : genLoopAux env 3 2 1 s1 g1 v1 = genLoopAux env 3 1 2 s2 g2 v2 := e2
    unfold generateSql
    rw [e1x, e2x]
  have hre' : (genLoopAux env 3 1 2 s2 g2 v2).runError = finalAttemptError env 3 := hre
  have hga' : (genLoopAux env 3 1 2 s2 g2 v2).genAttempts = 3 := hga
  obtain ⟨e, he⟩ := Option.isSome_iff_exists.mp hsome
  refine ⟨?_, ?_, ?_, ?_, hsome⟩ <;>
    simp only [runPipeline, hG, hre', he, hga']

/-- Witness for the amended C2: concrete collaborators failing on all
three attempts reach terminal `error` without invoking the executor. -/
theorem claim_C2_witness :
    (runPipeline envGenFail 3).status = Status.error
    ∧ (runPipeline envGenFail 3).genAttempts = 3
    ∧ (runPipeline envGenFail 3).execCalls = [] := by
  have h := claim_C2_amended envGenFail (by decide)
  exact ⟨h.1, h.2.2.1, h.2.1⟩

/-- Claim C3: in every run whose deciding attempt parses to text that
case-insensitively equals the sentinel `NO_SQL` (after any prefix of
failing attempts), the pipeline ends with `status = no_sql_generated`, no
result set, no error, the executor is never invoked, and no validation
rule is ever applied to sentinel text. -/
theorem claim_C3 (env : Env) (k : Nat) (resp : LLMResponse)
    (hk : k ∈ [1, 2, 3])
    (hpre : (((List.range (k - 1)).map (fun i => i + 1)).all
      (fun n => attemptFails env n)) = true)
    (hg : env.gen k = .ok resp)
    (hs : upper (env.parse resp.content) = ("NO_SQL".toList)) :
    (runPipeline env 3).status = .no_sql_generated
    ∧ (runPipeline env 3).data = none
    ∧ (runPipeline env 3).execCalls = []
    ∧ (runPipeline env 3).error = none
    ∧ ∀ s ∈ (runPipeline env 3).validateCalls, upper s ≠ ("NO_SQL".toList) := by
  have hvc : ∀ s ∈ (genLoopAux env 3 3 0 ("NO_SQL".toList) none []).validateCalls,
      upper s ≠ ("NO_SQL".toList) :=
    validateCalls_not_sentinel env 3 3 0 _ _ _ (by intro s hs'; cases hs')
  have hmem : k = 1 ∨ k = 2 ∨ k = 3 := by simpa using hk
  rcases hmem with hk1 | hk2 | hk3
  · subst hk1
    have hG2 : genLoopAux env 3 3 0 ("NO_SQL".toList) none [] =
        { sqlQuery := env.parse resp.content, runError := none, genAttempts := 1,
          generatedSql := some (env.parse resp.content), validateCalls := [] } :=
      genLoopAux_sentinel env 3 2 0 ("NO_SQL".toList) none [] resp hg hs
    have hG : generateSql env 3 =
        { sqlQuery := env.parse resp.content, runError := none, genAttempts := 1,
          generatedSql := some (env.parse resp.content), validateCalls := [] } := hG2
    rw [hG2] at hvc
    refine ⟨?_, ?_, ?_, ?_, ?_⟩ <;>
      simp only [runPipeline, hG, if_pos hs]
    exact hvc
  · subst hk2
    have h1 : attemptFails env 1 = true := by
      have hr : ((List.range (2 - 1)).map (fun i => i + 1)) = [1] := rfl
      rw [hr] at hpre
      simpa using hpre
    obtain ⟨s1, g1, v1, e1⟩ :=
      genLoopAux_step_ex env 3 2 0 ("NO_SQL".toList) none [] h1 (by omega)
    have e1x : genLoopAux env 3 3 0 ("NO_SQL".toList) none [] =
        genLoopAux env 3 2 1 s1 g1 v1 := e1
    have e2x : genLoopAux env 3 2 1 s1 g1 v1 =
        { sqlQuery := env.parse resp.content, runError := none, genAttempts := 2,
          generatedSql := some (env.parse resp.content), validateCalls := v1 } :=
      genLoopAux_sentinel env 3 1 1 s1 g1 v1 resp hg hs
    have hG2 : genLoopAux env 3 3 0 ("NO_SQL".toList) none [] =
        { sqlQuery := env.parse resp.content, runError := none, genAttempts := 2,
          generatedSql := some (env.parse resp.content), validateCalls := v1 } := by
      rw [e1x, e2x]
    have hG : generateSql env 3 =
        { sqlQuery := env.parse resp.content, runError := none, genAttempts := 2,
          generatedSql := some (env.parse resp.content), validateCalls := v1 } := hG2
    rw [hG2] at hvc
    refine ⟨?_, ?_, ?_, ?_, ?_⟩ <;>
      simp only [runPipeline, hG, if_pos hs]
    exact hvc
  · subst hk3
    have hpre' : attemptFails env 1 = true ∧ attemptFails env 2 = true := by
      have hr : ((List.range (3 - 1)).map (fun i => i + 1)) = [1, 2] := rfl
      rw [hr] at hpre
      simpa using hpre
    obtain ⟨h1, h2⟩ := hpre'
    obtain ⟨s1, g1, v1, e1⟩ :=
      genLoopAux_step_ex env 3 2 0 ("NO_SQL".toList) none [] h1 (by omega)
    obtain ⟨s2, g2, v2, e2⟩ := genLoopAux_step_ex env 3 1 1 s1 g1 v1 h2 (by omega)
    have e1x : genLoopAux env 3 3 0 ("NO_SQL".toList) none [] =
        genLoopAux env 3 2 1 s1 g1 v1 := e1
    have e2x : genLoopAux env 3 2 1 s1 g1 v1 = genLoopAux env 3 1 2 s2 g2 v2 := e2
    have e3x : genLoopAux env 3 1 2 s2 g2 v2 =
        { sqlQuery := env.parse resp.content, runError := none, genAttempts := 3,
          generatedSql := some (env.parse resp.content), validateCalls := v2 } :=
      genLoopAux_sentinel env 3 0 2 s2 g2 v2 resp hg hs
    have hG2 : genLoopAux env 3 3 0 ("NO_SQL".toList) none [] =
        { sqlQuery := env.parse resp.content, runError := none, genAttempts := 3,
          generatedSql := some (env.parse resp.content), validateCalls := v2 } := by
      rw [e1x, e2x, e3x]
    have hG : generateSql env 3 =
        { sqlQuery := env.parse resp.content, runError := none, genAttempts := 3,
          generatedSql := some (env.parse resp.content), validateCalls := v2 } := hG2
    rw [hG2] at hvc
    refine ⟨?_, ?_, ?_, ?_, ?_⟩ <;>
      simp only [runPipeline, hG, if_pos hs]
    exact hvc

/-- Witness for C3: collaborators whose generator emits the sentinel on
the first attempt end in `no_sql_generated` with no data and no executor
call. -/
theorem claim_C3_witness :
    (runPipeline envSentinel 3).status = Status.no_sql_generated
    ∧ (runPipeline envSentinel 3).data = none
    ∧ (runPipeline envSentinel 3).execCalls = [] := by
  have h := claim_C3 envSentinel 1 ⟨("NO_SQL".toList), ("m".toList)⟩
    (by decide) (by decide) rfl (by decide)
  exact ⟨h.1, h.2.1, h.2.2.1⟩

/-- Claim C7: in every pipeline run the executor is invoked at most once,
only on a candidate that passed the whole validation chain (and is not
the sentinel); it is never invoked when the generation/validation loop
ended with an error; and an execution failure is terminal, surfacing the
data-store message as the run's error without any further executor
call. -/
theorem claim_C7 (env : Env) (mr : Nat) :
    (runPipeline env mr).execCalls.length ≤ 1
    ∧ (∀ q ∈ (runPipeline env mr).execCalls,
        validateSQL env.tables q = .ok ∧ upper q ≠ ("NO_SQL".toList))
    ∧ ((generateSql env mr).runError.isSome = true →
        (runPipeline env mr).execCalls = [])
    ∧ (∀ m, (generateSql env mr).runError = none →
        upper (generateSql env mr).sqlQuery ≠ ("NO_SQL".toList) →
        env.exec (generateSql env mr).sqlQuery = .err m →
          (runPipeline env mr).status = .error
          ∧ (runPipeline env mr).error = some (.execution m)
          ∧ (runPipeline env mr).execCalls = [(generateSql env mr).sqlQuery]) := by
  cases hre : (generateSql env mr).runError with
  | some e =>
    refine ⟨?_, ?_, ?_, ?_⟩
    · simp [runPipeline, hre]
    · simp [runPipeline, hre]
    · simp [runPipeline, hre]
    · intro m hnone
      exact Option.noConfusion hnone
  | none =>
    have hsv : sentinelOrValid env.tables (generateSql env mr).sqlQuery :=
      genLoopAux_exit env mr mr 0 ("NO_SQL".toList) none [] (by omega)
        (fun _ => Or.inl (by decide)) hre
    by_cases hs : upper (generateSql env mr).sqlQuery = ("NO_SQL".toList)
    · refine ⟨?_, ?_, ?_, ?_⟩
      · simp [runPipeline, hre, hs]
      · simp [runPipeline, hre, hs]
      · simp [runPipeline, hre, hs]
      · intro m _ hns
        exact absurd hs hns
    · have hval : validateSQL env.tables (generateSql env mr).sqlQuery = .ok := by
        rcases hsv with h | h
        · exact absurd h hs
        · exact h
      cases hx : env.exec (generateSql env mr).sqlQuery with
      | ok qres =>
        refine ⟨?_, ?_, ?_, ?_⟩
        · simp only [runPipeline, hre, if_neg hs, hx]
          simp
        · simp only [runPipeline, hre, if_neg hs, hx]
          intro q hq
          rw [List.mem_singleton.mp hq]
          exact ⟨hval, hs⟩
        · intro hsome
          simp at hsome
        · intro m _ _ hx'
          exact ExecOutcome.noConfusion hx'
      | err m' =>
        refine ⟨?_, ?_, ?_, ?_⟩
        · simp only [runPipeline, hre, if_neg hs, hx]
          simp
        · simp only [runPipeline, hre, if_neg hs, hx]
          intro q hq
          rw [List.mem_singleton.mp hq]
          exact ⟨hval, hs⟩
        · intro hsome
          simp at hsome
        · intro m _ _ hx'
          injection hx' with hm
          subst hm
          simp only [runPipeline, hre, if_neg hs, hx]
          simp

/-- Witness for C7: collaborators whose data store rejects the validated
query end with `status = error`, surface the store's message, and invoke
the executor exactly once. -/
theorem claim_C7_witness :
    (runPipeline envExecFail 3).status = Status.error
    ∧ (runPipeline envExecFail 3).error =
        some (RunError.execution ("db down".toList))
    ∧ (runPipeline envExecFail 3).execCalls =
        [("SELECT TOP 5 name FROM patients".toList)] := by
  have h := (claim_C7 envExecFail 3).2.2.2 ("db down".toList)
    (by decide) (by decide) (by decide)
  exact ⟨h.1, h.2.1, h.2.2⟩

/-- Claim C8: when the rate limiter's `acquire` yields no token before
the timeout, `OllamaClient.generate` raises `LLMGenerationError` before
any transport attempt; such a failure is caught by the orchestrator's
loop and consumes exactly one retry-budget unit — a following successful,
valid attempt ends the loop normally on attempt 2, so the failure never
escapes the pipeline. -/
theorem claim_C8 (env : Env) (m : List Char) (resp : LLMResponse)
    (h1 : env.gen 1 = .genError m)
    (h2 : env.gen 2 = .ok resp)
    (hns : upper (env.parse resp.content) ≠ ("NO_SQL".toList))
    (hval : validateSQL env.tables (env.parse resp.content) = .ok) :
    (∀ (transport : Nat → Except (List Char) LLMResponse) (ra : Nat),
        ollamaGenerate false transport ra = .error .rateLimitExceeded)
    ∧ (generateSql env 3).runError = none
    ∧ (generateSql env 3).genAttempts = 2
    ∧ (generateSql env 3).sqlQuery = env.parse resp.content := by
  have hf1 : attemptFails env 1 = true := by
    unfold attemptFails
    rw [h1]
  obtain ⟨s1, g1, v1, e1⟩ :=
    genLoopAux_step_ex env 3 2 0 ("NO_SQL".toList) none [] hf1 (by omega)
  have e1x : genLoopAux env 3 3 0 ("NO_SQL".toList) none [] =
      genLoopAux env 3 2 1 s1 g1 v1 := e1
  have e2x : genLoopAux env 3 2 1 s1 g1 v1 =
      { sqlQuery := env.parse resp.content, runError := none, genAttempts := 2,
        generatedSql := some (env.parse resp.content),
        validateCalls := v1 ++ [env.parse resp.content] } :=
    genLoopAux_valid env 3 1 1 s1 g1 v1 resp h2 hns hval
  have hG : generateSql env 3 =
      { sqlQuery := env.parse resp.content, runError := none, genAttempts := 2,
        generatedSql := some (env.parse resp.content),
        validateCalls := v1 ++ [env.parse resp.content] } := by
    rw [show generateSql env 3 = genLoopAux env 3 3 0 ("NO_SQL".toList) none [] from rfl,
      e1x, e2x]
  exact ⟨fun transport ra => rfl, by rw [hG], by rw [hG], by rw [hG]⟩

/-- Witness for C8: a first attempt failing with the rate limiter's
message followed by a valid second attempt recovers, and the rate-limited
`generate` call itself fails with the rate-limit error. -/
theorem claim_C8_witness :
    (generateSql envRateLimited 3).runError = none
    ∧ (generateSql envRateLimited 3).genAttempts = 2
    ∧ ollamaGenerate false (fun _ => .error ("net".toList)) 3 =
        .error .rateLimitExceeded := by
  have h := claim_C8 envRateLimited ("Rate limit exceeded".toList)
    ⟨("SELECT TOP 5 name FROM patients".toList), ("m".toList)⟩
    rfl rfl (by decide) (by decide)
  exact ⟨h.2.1, h.2.2.1, h.1 _ 3⟩

/-- Claim C9: with deterministic collaborators, two calls to the pipeline
entry point with identical question and history yield identical `status`
and `generated_sql`; in the embedding the collaborators are pure
functions, so both calls of `processTwice` denote the same value. -/
theorem claim_C9 (env : Env) (question : List Char)
    (history : Option (List ChatMessage)) :
    ((processTwice env question history).1).map
        (fun r => (r.status, r.generated_sql)) =
      ((processTwice env question history).2).map
        (fun r => (r.status, r.generated_sql)) :=
  rfl

end SqlRag
